import Mathlib

/-!
Shallow embedding of the Screenplay core of the repository
`automation-playwright-py-screenplay` (Python / Playwright).

Embedded source files:
* `src/screenplay/base.py`            — `Actor`, `Performable`, `Question`, `Ability`
* `src/screenplay/abilities/browse_the_web.py` — `BrowseTheWeb`
* `src/screenplay/questions/visibility.py`     — `Visibility`, `Presence`
* `src/screenplay/questions/text.py`           — `Text`
* `src/screenplay/interactions/type.py`        — `Type`

Modelling conventions:
* Python exceptions are values of `PyErr`; a raising call returns
  `Except PyErr _`.  The Python exception class is kept as data
  (`PyErr.className`), since the spec talks about error classes.
* Python objects of class `BrowseTheWeb` live on an explicit heap
  (`Heap`), a list of (object id, field record) pairs plus a fresh-id
  counter, because the source mutates those objects in place
  (`as_actor` allocates, `close_page` / `close_context` / the `page`
  property mutate `self`).
* The Playwright driver is external to the spec's core; it is modelled
  as a state `DriverState` holding a fresh-handle counter, per-call
  behaviour oracles (so theorems quantify over every driver behaviour),
  and a log of the driver calls that were issued, which lets theorems
  speak about call order.
* Browser / context / page handles and actor identities are `Nat` ids.
* Python ability classes are identified by their (fully concrete) class
  name, a `String`: `type(ability)` in `Actor.who_can` becomes the
  `cls` field carried by a granted ability.
-/

namespace Screenplay

/-- A Python exception value: its class name is kept as data.
`valueError` embeds `raise ValueError(msg)` (base.py line 91);
`driverError cls msg` is an arbitrary exception raised by the
Playwright driver (class chosen by the driver). -/
inductive PyErr where
  | valueError (msg : String)
  | driverError (cls : String) (msg : String)
deriving DecidableEq, Repr

/-- The Python class name of an exception. -/
def PyErr.className : PyErr → String
  | .valueError _ => "ValueError"
  | .driverError c _ => c

/-- The message of an exception. -/
def PyErr.message : PyErr → String
  | .valueError m => m
  | .driverError _ m => m

/-- A Python value appearing in an options dict (`Dict[str, Any]`). -/
inductive PyVal where
  | vNone
  | vBool (b : Bool)
  | vInt (n : Int)
  | vStr (s : String)
deriving DecidableEq, Repr

/-- Python truthiness of a `PyVal`, as used by `if self.options.get('clear', True):`. -/
def PyVal.truthy : PyVal → Bool
  | .vNone => false
  | .vBool b => b
  | .vInt n => n != 0
  | .vStr s => s != ""

/-- The instance fields of a `BrowseTheWeb` object
(browse_the_web.py `__init__`, lines 15–19): the browser handle,
the optional cached context and page handles, and the optional
diagnostic actor reference (`_actor`), kept as an actor id. -/
structure BTWFields where
  browser : Nat
  ctx : Option Nat
  pg : Option Nat
  actorRef : Option Nat
deriving DecidableEq, Repr

instance : Inhabited BTWFields := ⟨⟨0, none, none, none⟩⟩

/-- Association-list lookup by object id. -/
def lookupEntry (i : Nat) : List (Nat × BTWFields) → Option BTWFields
  | [] => none
  | (j, g) :: rest => if j = i then some g else lookupEntry i rest

/-- Association-list in-place update of the entry with id `i`. -/
def updEntry (i : Nat) (f : BTWFields) : List (Nat × BTWFields) → List (Nat × BTWFields)
  | [] => []
  | (j, g) :: rest =>
      if j = i then (j, f) :: updEntry i f rest else (j, g) :: updEntry i f rest

/-- The heap of `BrowseTheWeb` objects: allocated objects and the next
fresh object id.  Needed because the Python source mutates these
objects in place and aliasing between actors is part of the claims. -/
structure Heap where
  objs : List (Nat × BTWFields)
  next : Nat
deriving DecidableEq, Repr

/-- Dereference an object id. -/
def Heap.get (h : Heap) (i : Nat) : Option BTWFields := lookupEntry i h.objs

/-- Total dereference; in Python a live reference always dereferences,
so the default is only reached in model states no execution produces. -/
def Heap.getF (h : Heap) (i : Nat) : BTWFields := (h.get i).getD default

/-- Mutate the fields of object `i` in place. -/
def Heap.set (h : Heap) (i : Nat) (f : BTWFields) : Heap :=
  { h with objs := updEntry i f h.objs }

/-- Allocate a new object with fields `f`; returns the new heap and the
fresh id. -/
def Heap.alloc (h : Heap) (f : BTWFields) : Heap × Nat :=
  ({ objs := (h.next, f) :: h.objs, next := h.next + 1 }, h.next)

/-- A driver-call event, recorded in the order the calls are issued. -/
inductive DEvent where
  | newContext (id : Nat)
  | newPage (id : Nat)
  | waitVisible (loc : String)
  | fill (loc : String) (value : String)
  | typeText (loc : String) (text : String) (opts : List (String × PyVal))
deriving DecidableEq, Repr

/-- The external Playwright driver, modelled as: a fresh-handle counter
(`new_context` / `new_page` hand out fresh handles), behaviour oracles
for each call the embedded code makes (`none` / `.ok` = the call
succeeds, otherwise the driver raises the given exception), and a log
of issued calls. -/
structure DriverState where
  counter : Nat
  newContextErr : Option PyErr
  newPageErr : Option PyErr
  isVisibleR : String → Except PyErr Bool
  queryFoundR : String → Except PyErr Bool
  waitVisR : String → Except PyErr Unit
  textContentR : String → Except PyErr (Option String)
  fillErr : String → String → Option PyErr
  typeErr : String → String → Option PyErr
  log : List DEvent

/-- An actor (base.py lines 58–66): identity, `name`, and the
`_abilities` dict, keyed by the granted ability's concrete class name
and holding the heap id of the stored (bound) ability object. -/
structure Actor where
  aid : Nat
  name : String
  abilities : List (String × Nat)
deriving DecidableEq, Repr

/-- Python-dict lookup in the `_abilities` association list. -/
def dictGet (k : String) : List (String × Nat) → Option Nat
  | [] => none
  | (k', v) :: rest => if k' = k then some v else dictGet k rest

/-- Python-dict assignment `d[k] = v`: replaces the value in place if
the key is present (dicts keep insertion order on update), appends
otherwise. -/
def dictInsert (k : String) (v : Nat) : List (String × Nat) → List (String × Nat)
  | [] => [(k, v)]
  | (k', v') :: rest =>
      if k' = k then (k, v) :: rest else (k', v') :: dictInsert k v rest

/-- An ability instance as passed to `who_can`: its concrete Python
class (`type(ability)`) and the heap object holding its fields. -/
structure PyAbility where
  cls : String
  oid : Nat
deriving DecidableEq, Repr

/-- `BrowseTheWeb.as_actor` (browse_the_web.py lines 31–35): construct
a fresh `BrowseTheWeb(self._browser, self._context, self._page)` and
set its `_actor` to the given actor.  Returns the updated heap and the
new object's id. -/
def asActor (h : Heap) (oid : Nat) (aid : Nat) : Heap × Nat :=
  let f := h.getF oid
  h.alloc { browser := f.browser, ctx := f.ctx, pg := f.pg, actorRef := some aid }

/-- `Actor.who_can` (base.py lines 68–72): for each ability, store
`ability.as_actor(self)` in `_abilities` keyed by `type(ability)`;
returns the (updated) actor. -/
def whoCan (a : Actor) (h : Heap) : List PyAbility → Actor × Heap
  | [] => (a, h)
  | ab :: rest =>
      let (h', noid) := asActor h ab.oid a.aid
      whoCan { a with abilities := dictInsert ab.cls noid a.abilities } h' rest

/-- `Actor.has_ability_to` (base.py lines 84–86). -/
def hasAbilityTo (a : Actor) (k : String) : Bool :=
  (dictGet k a.abilities).isSome

/-- `Actor.ability_to` (base.py lines 88–92): raises
`ValueError(f"Actor {self.name} does not have the ability {kind}")`
when the ability is absent, otherwise returns the stored object. -/
def abilityTo (a : Actor) (k : String) : Except PyErr Nat :=
  match dictGet k a.abilities with
  | some oid => .ok oid
  | none =>
      .error (.valueError ("Actor " ++ a.name ++ " does not have the ability " ++ k))

/-- The `context` property (browse_the_web.py lines 42–47): return the
cached context if any, otherwise call `self._browser.new_context()`
(which may raise), cache the fresh handle and return it. -/
def contextProp (f : BTWFields) (d : DriverState) :
    Except PyErr (Nat × BTWFields × DriverState) :=
  match f.ctx with
  | some c => .ok (c, f, d)
  | none =>
      match d.newContextErr with
      | some e => .error e
      | none =>
          .ok (d.counter, { f with ctx := some d.counter },
            { d with counter := d.counter + 1,
                     log := d.log ++ [.newContext d.counter] })

/-- The `page` property (browse_the_web.py lines 49–54): return the
cached page if any, otherwise call `self.context.new_page()` (going
through the `context` property, so a context may be created first),
cache the fresh handle and return it. -/
def pageProp (f : BTWFields) (d : DriverState) :
    Except PyErr (Nat × BTWFields × DriverState) :=
  match f.pg with
  | some p => .ok (p, f, d)
  | none =>
      match contextProp f d with
      | .error e => .error e
      | .ok (_, f1, d1) =>
          match d1.newPageErr with
          | some e => .error e
          | none =>
              .ok (d1.counter, { f1 with pg := some d1.counter },
                { d1 with counter := d1.counter + 1,
                          log := d1.log ++ [.newPage d1.counter] })

/-- `close_page` (browse_the_web.py lines 60–64): if a page is cached,
close it and clear the cache (the driver-side close has no effect the
model tracks). -/
def close_page (f : BTWFields) : BTWFields :=
  if f.pg.isSome then { f with pg := none } else f

/-- `close_context` (browse_the_web.py lines 66–71): if a context is
cached, close it and clear both the context cache and the page cache. -/
def close_context (f : BTWFields) : BTWFields :=
  if f.ctx.isSome then { f with ctx := none, pg := none } else f

/-- Heap-level `close_page`: mutates the object `oid` in place. -/
def closePageH (h : Heap) (oid : Nat) : Heap :=
  h.set oid (close_page (h.getF oid))

/-- Heap-level `close_context`: mutates the object `oid` in place. -/
def closeContextH (h : Heap) (oid : Nat) : Heap :=
  h.set oid (close_context (h.getF oid))

/-- Heap-level `page` property on object `oid`: the caching writes back
into the object. -/
def pagePropH (h : Heap) (oid : Nat) (d : DriverState) :
    Except PyErr (Nat × Heap × DriverState) :=
  match pageProp (h.getF oid) d with
  | .error e => .error e
  | .ok (p, f', d') => .ok (p, h.set oid f', d')

/-- `page.wait_for_selector(loc, state="visible")`: raises when the
driver's wait fails, otherwise logs the call. -/
def waitForSelectorVisible (loc : String) (d : DriverState) :
    Except PyErr DriverState :=
  match d.waitVisR loc with
  | .error e => .error e
  | .ok _ => .ok { d with log := d.log ++ [.waitVisible loc] }

/-- `Visibility.answered_by` (visibility.py lines 19–27): resolve the
`BrowseTheWeb` ability (raises if absent), take its `page` (may create
context/page, may raise), then `page.is_visible(locator)` inside
`try: ... except Exception: return False`. -/
def visibilityAnsweredBy (loc : String) (a : Actor) (h : Heap) (d : DriverState) :
    Except PyErr (Bool × Heap × DriverState) :=
  match abilityTo a "BrowseTheWeb" with
  | .error e => .error e
  | .ok oid =>
      match pagePropH h oid d with
      | .error e => .error e
      | .ok (_, h', d') =>
          match d'.isVisibleR loc with
          | .error _ => .ok (false, h', d')
          | .ok b => .ok (b, h', d')

/-- `Presence.answered_by` (visibility.py lines 44–53): same shape; the
probe is `page.query_selector(locator)` and the answer is
`element is not None`, with any exception converted to `False`. -/
def presenceAnsweredBy (loc : String) (a : Actor) (h : Heap) (d : DriverState) :
    Except PyErr (Bool × Heap × DriverState) :=
  match abilityTo a "BrowseTheWeb" with
  | .error e => .error e
  | .ok oid =>
      match pagePropH h oid d with
      | .error e => .error e
      | .ok (_, h', d') =>
          match d'.queryFoundR loc with
          | .error _ => .ok (false, h', d')
          | .ok found => .ok (found, h', d')

/-- `Text.answered_by` (text.py lines 20–29): resolve the ability and
page, `wait_for_selector(loc, state="visible")` (raises propagate),
then return `page.text_content(loc) or ""`. -/
def textAnsweredBy (loc : String) (a : Actor) (h : Heap) (d : DriverState) :
    Except PyErr (String × Heap × DriverState) :=
  match abilityTo a "BrowseTheWeb" with
  | .error e => .error e
  | .ok oid =>
      match pagePropH h oid d with
      | .error e => .error e
      | .ok (_, h', d1) =>
          match waitForSelectorVisible loc d1 with
          | .error e => .error e
          | .ok d2 =>
              match d2.textContentR loc with
              | .error e => .error e
              | .ok tc => .ok (tc.getD "", h', d2)

/-- The `Type` interaction's fields (type.py lines 12–15); `__init__`
stores `options or {}`. -/
structure TypeI where
  text : String
  locator : String
  options : List (String × PyVal)
deriving DecidableEq, Repr

/-- `Type.__init__` with its `options or {}` defaulting. -/
def TypeI.make (text loc : String) (options : Option (List (String × PyVal))) : TypeI :=
  ⟨text, loc, options.getD []⟩

/-- Python-dict lookup in an options dict. -/
def optGet (k : String) : List (String × PyVal) → Option PyVal
  | [] => none
  | (k', v) :: rest => if k' = k then some v else optGet k rest

/-- `page.fill(loc, value)`: may raise, otherwise logs the call. -/
def fillCall (loc value : String) (d : DriverState) : Except PyErr DriverState :=
  match d.fillErr loc value with
  | some e => .error e
  | none => .ok { d with log := d.log ++ [.fill loc value] }

/-- `page.type(loc, text, **opts)`: may raise, otherwise logs the call
together with the keyword options it received. -/
def typeCall (loc text : String) (opts : List (String × PyVal)) (d : DriverState) :
    Except PyErr DriverState :=
  match d.typeErr loc text with
  | some e => .error e
  | none => .ok { d with log := d.log ++ [.typeText loc text opts] }

/-- `Type.perform_as` (type.py lines 22–35): resolve ability and page,
wait for visibility, `page.fill(loc, "")` when
`self.options.get('clear', True)` is truthy, then
`page.type(loc, text, **{k: v for k, v in options.items() if k != 'clear'})`. -/
def typePerformAs (t : TypeI) (a : Actor) (h : Heap) (d : DriverState) :
    Except PyErr (Heap × DriverState) :=
  match abilityTo a "BrowseTheWeb" with
  | .error e => .error e
  | .ok oid =>
      match pagePropH h oid d with
      | .error e => .error e
      | .ok (_, h', d1) =>
          match waitForSelectorVisible t.locator d1 with
          | .error e => .error e
          | .ok d2 =>
              let step :=
                if ((optGet "clear" t.options).getD (.vBool true)).truthy then
                  fillCall t.locator "" d2
                else .ok d2
              match step with
              | .error e => .error e
              | .ok d3 =>
                  match typeCall t.locator t.text
                      (t.options.filter (fun p => p.1 ≠ "clear")) d3 with
                  | .error e => .error e
                  | .ok d4 => .ok (h', d4)

/-- A performable (base.py lines 13–19): one polymorphic entry point
`perform_as(actor)` acting on a world `W` by side effect; in Python a
failing call raises but the side effects made so far stay, so the step
returns the world it reached together with the exception, if any. -/
structure Performable (W : Type) where
  performAs : Actor → W → Option PyErr × W

/-- `Actor.attempts_to` (base.py lines 74–78): call
`task.perform_as(self)` on each performable in the given order; a
raised exception propagates (later performables never run); when the
loop finishes, return `self`. -/
def attemptsTo {W : Type} (a : Actor) :
    List (Performable W) → W → Except PyErr Actor × W
  | [], w => (.ok a, w)
  | t :: ts, w =>
      match t.performAs a w with
      | (some e, w') => (.error e, w')
      | (none, w') => attemptsTo a ts w'

/-! ### Helper lemmas about the dictionary and heap primitives -/

theorem dictGet_insert_self (k : String) (v : Nat) (l : List (String × Nat)) :
    dictGet k (dictInsert k v l) = some v := by
  induction l with
  | nil => simp [dictInsert, dictGet]
  | cons p rest ih =>
      obtain ⟨k', v'⟩ := p
      by_cases hp : k' = k
      · simp [dictInsert, hp, dictGet]
      · simp [dictInsert, hp, dictGet, ih]

theorem lookupEntry_upd_ne (i j : Nat) (f : BTWFields) (l : List (Nat × BTWFields))
    (hne : j ≠ i) : lookupEntry j (updEntry i f l) = lookupEntry j l := by
  induction l with
  | nil => simp [updEntry]
  | cons p rest ih =>
      obtain ⟨m, g⟩ := p
      by_cases hm : m = i
      · subst hm
        simp [updEntry, lookupEntry, hne, Ne.symm hne, ih]
      · simp [updEntry, lookupEntry, hm, ih]

theorem Heap.get_set_ne (h : Heap) (i j : Nat) (f : BTWFields) (hne : j ≠ i) :
    (h.set i f).get j = h.get j :=
  lookupEntry_upd_ne i j f h.objs hne

theorem Heap.get_alloc_new (h : Heap) (f : BTWFields) :
    (h.alloc f).1.get (h.alloc f).2 = some f := by
  simp [Heap.alloc, Heap.get, lookupEntry]

theorem Heap.get_alloc_ne (h : Heap) (f : BTWFields) (i : Nat) (hi : i ≠ h.next) :
    (h.alloc f).1.get i = h.get i := by
  simp [Heap.alloc, Heap.get, lookupEntry, Ne.symm hi]

theorem dictInsert_filter_le_one (k : String) (v : Nat) (l : List (String × Nat))
    (h : (l.filter (fun p => p.1 == k)).length ≤ 1) :
    ((dictInsert k v l).filter (fun p => p.1 == k)).length ≤ 1 := by
  induction l with
  | nil => simp [dictInsert]
  | cons p rest ih =>
      obtain ⟨k', v'⟩ := p
      by_cases hp : k' = k
      · subst hp
        simp only [dictInsert, if_pos rfl]
        simpa [List.filter_cons] using h
      · have hk : (k' == k) = false := by simpa using hp
        simp only [dictInsert, if_neg hp]
        have h' : (rest.filter (fun p => p.1 == k)).length ≤ 1 := by
          simpa [List.filter_cons, hk] using h
        simpa [List.filter_cons, hk] using ih h'

/-! ### Sequencing lemmas for `attempts_to` -/

theorem attemptsTo_append {W : Type} (a : Actor) (ts1 ts2 : List (Performable W))
    (w w1 : W) (h1 : attemptsTo a ts1 w = (.ok a, w1)) :
    attemptsTo a (ts1 ++ ts2) w = attemptsTo a ts2 w1 := by
  induction ts1 generalizing w with
  | nil =>
      simp only [attemptsTo] at h1
      obtain ⟨-, rfl⟩ := Prod.mk.injEq .. ▸ h1
      simp
  | cons t ts ih =>
      simp only [attemptsTo, List.cons_append] at h1 ⊢
      rcases hp : t.performAs a w with ⟨oe, w'⟩
      rw [hp] at h1
      cases oe with
      | some e => simp at h1
      | none => exact ih w' h1

/-! ### Shared concrete fixtures used by witnesses and counterexamples -/

/-- An actor with no abilities. -/
def alice : Actor := ⟨0, "Alice", []⟩

/-- An actor holding the `BrowseTheWeb` ability stored at heap id 0. -/
def bob : Actor := ⟨1, "Bob", [("BrowseTheWeb", 0)]⟩

/-- A heap with one `BrowseTheWeb` object (id 0) with a cached context
(handle 2) and page (handle 3). -/
def heap1 : Heap :=
  { objs := [(0, { browser := 1, ctx := some 2, pg := some 3, actorRef := some 1 })],
    next := 1 }

/-- A driver on which every call succeeds. -/
def okDriver : DriverState :=
  { counter := 10
    newContextErr := none
    newPageErr := none
    isVisibleR := fun _ => .ok true
    queryFoundR := fun _ => .ok true
    waitVisR := fun _ => .ok ()
    textContentR := fun _ => .ok (some "hello")
    fillErr := fun _ _ => none
    typeErr := fun _ _ => none
    log := [] }

/-- A performable for the trace world `W := List Nat`: logs its index
and optionally raises. -/
def tracer (i : Nat) (fail : Option PyErr) : Performable (List Nat) :=
  ⟨fun _ w => (fail, w ++ [i])⟩

/-! ### C1 -/

/-- **C1.** `Actor.attempts_to` runs the performables strictly in the
given order: after a prefix `ts1` succeeds reaching world `w1`, the
remaining list is run from `w1` (first conjunct, with `ts2` arbitrary);
if the next performable `t` raises `e` there, the whole call raises
exactly `e` and the performables after `t` are never executed — the
outcome is the same for every tail `ts2` and the world stays at `w2`,
the world `t` left (second conjunct); and whenever `attempts_to`
returns normally it returns the calling actor itself (third
conjunct). -/
theorem attemptsTo_spec {W : Type} (a : Actor) (ts1 : List (Performable W))
    (t : Performable W) (w w1 w2 : W) (e : PyErr)
    (h1 : attemptsTo a ts1 w = (.ok a, w1))
    (h2 : t.performAs a w1 = (some e, w2)) :
    (∀ ts2, attemptsTo a (ts1 ++ ts2) w = attemptsTo a ts2 w1) ∧
    (∀ ts2, attemptsTo a (ts1 ++ t :: ts2) w = (.error e, w2)) ∧
    (∀ (us : List (Performable W)) (u u' : W) (a' : Actor),
        attemptsTo a us u = (.ok a', u') → a' = a) := by
  refine ⟨fun ts2 => attemptsTo_append a ts1 ts2 w w1 h1, fun ts2 => ?_, ?_⟩
  · rw [attemptsTo_append a ts1 (t :: ts2) w w1 h1]
    simp [attemptsTo, h2]
  · intro us u u' a' hu
    induction us generalizing u with
    | nil =>
        simp only [attemptsTo] at hu
        exact (Except.ok.injEq .. ▸ congrArg Prod.fst hu).symm
    | cons v vs ih =>
        simp only [attemptsTo] at hu
        rcases hp : v.performAs a u with ⟨oe, u1⟩
        rw [hp] at hu
        cases oe with
        | some e' => simp at hu
        | none => exact ih u1 hu

/-- Witness for C1 at concrete inputs: two performables succeed in
order (logging `0` then `1`), the third raises, the fourth is never
executed (the log stops at `2`), and the error reaches the caller
unmodified. -/
theorem attemptsTo_spec_witness :
    attemptsTo alice [tracer 0 none, tracer 1 none] ([] : List Nat) = (.ok alice, [0, 1]) ∧
    (tracer 2 (some (.driverError "TimeoutError" "boom"))).performAs alice [0, 1] =
      (some (.driverError "TimeoutError" "boom"), [0, 1, 2]) ∧
    attemptsTo alice
        [tracer 0 none, tracer 1 none, tracer 2 (some (.driverError "TimeoutError" "boom")),
         tracer 3 none] ([] : List Nat) =
      (.error (.driverError "TimeoutError" "boom"), [0, 1, 2]) := by
  refine ⟨rfl, rfl, ?_⟩
  have h := attemptsTo_spec alice [tracer 0 none, tracer 1 none]
    (tracer 2 (some (.driverError "TimeoutError" "boom"))) ([] : List Nat) [0, 1] [0, 1, 2]
    (.driverError "TimeoutError" "boom") rfl rfl
  exact h.2.1 [tracer 3 none]

/-! ### C2 -/

/-- Counterexample for C2: `Actor.ability_to` on an actor without the
requested ability raises Python's builtin `ValueError`
(base.py line 91), not a `MissingAbilityError` — no such class exists
in the repository, and the unit test
`test_actor_raises_error_for_missing_ability` expects `ValueError`. -/
theorem abilityTo_missing_cex :
    abilityTo alice "BrowseTheWeb" =
      .error (.valueError "Actor Alice does not have the ability BrowseTheWeb") ∧
    (PyErr.valueError "Actor Alice does not have the ability BrowseTheWeb").className =
      "ValueError" ∧
    "ValueError" ≠ "MissingAbilityError" :=
  ⟨rfl, rfl, by decide⟩

/-- **C2 (amended).** For every actor `A` and every ability kind `K`
that has not been granted to `A`, `A.ability_to(K)` fails with a
`ValueError` (not a `MissingAbilityError`, which does not exist in the
code) whose message names both the actor `A` and the requested kind
`K`. -/
theorem abilityTo_missing (a : Actor) (k : String) (h : hasAbilityTo a k = false) :
    abilityTo a k =
      .error (.valueError ("Actor " ++ a.name ++ " does not have the ability " ++ k)) ∧
    ∀ e, abilityTo a k = .error e →
      e.className = "ValueError" ∧
      a.name.data <:+: e.message.data ∧ k.data <:+: e.message.data := by
  cases hg : dictGet k a.abilities with
  | some v => simp [hasAbilityTo, hg] at h
  | none =>
      refine ⟨by simp [abilityTo, hg], ?_⟩
      intro e he
      simp only [abilityTo, hg] at he
      obtain rfl : PyErr.valueError
          ("Actor " ++ a.name ++ " does not have the ability " ++ k) = e := by
        simpa using he
      refine ⟨rfl, ?_, ?_⟩
      · exact ⟨"Actor ".data, (" does not have the ability " ++ k).data, by
          simp [PyErr.message, String.data_append, List.append_assoc]⟩
      · exact ⟨("Actor " ++ a.name ++ " does not have the ability ").data, [], by
          simp [PyErr.message, String.data_append]⟩

/-- Witness for C2's amended theorem at a concrete actor and kind. -/
theorem abilityTo_missing_witness :
    hasAbilityTo alice "BrowseTheWeb" = false ∧
    (abilityTo alice "BrowseTheWeb" =
      .error (.valueError ("Actor " ++ alice.name ++
        " does not have the ability " ++ "BrowseTheWeb")) ∧
    ∀ e, abilityTo alice "BrowseTheWeb" = .error e →
      e.className = "ValueError" ∧
      alice.name.data <:+: e.message.data ∧ "BrowseTheWeb".data <:+: e.message.data) :=
  ⟨rfl, abilityTo_missing alice "BrowseTheWeb" rfl⟩

/-! ### C9 -/

/-- **C9.** Ability lookup is keyed by the exact concrete class: an
actor granted only an instance of a subclass `S` of `B` (so the stored
key is `type(instance) = S ≠ B`) does not have the ability `B` —
`has_ability_to(B)` is `False` and `ability_to(B)` raises — while
`has_ability_to(S)` is `True`. -/
theorem subclass_key (a : Actor) (h : Heap) (oid : Nat) (S B : String)
    (hne : S ≠ B) (hempty : a.abilities = []) :
    hasAbilityTo (whoCan a h [⟨S, oid⟩]).1 B = false ∧
    abilityTo (whoCan a h [⟨S, oid⟩]).1 B =
      .error (.valueError ("Actor " ++ a.name ++ " does not have the ability " ++ B)) ∧
    hasAbilityTo (whoCan a h [⟨S, oid⟩]).1 S = true := by
  refine ⟨?_, ?_, ?_⟩ <;>
    simp [whoCan, asActor, hasAbilityTo, abilityTo, dictGet, dictInsert, hempty, hne]

/-- Witness for C9: granting only `MobileBrowseTheWeb` (a strict
subclass key) leaves `BrowseTheWeb` unavailable. -/
theorem subclass_key_witness :
    ("MobileBrowseTheWeb" ≠ "BrowseTheWeb" ∧ alice.abilities = []) ∧
    (hasAbilityTo (whoCan alice heap1 [⟨"MobileBrowseTheWeb", 0⟩]).1 "BrowseTheWeb" = false ∧
    abilityTo (whoCan alice heap1 [⟨"MobileBrowseTheWeb", 0⟩]).1 "BrowseTheWeb" =
      .error (.valueError ("Actor " ++ alice.name ++
        " does not have the ability " ++ "BrowseTheWeb")) ∧
    hasAbilityTo (whoCan alice heap1 [⟨"MobileBrowseTheWeb", 0⟩]).1 "MobileBrowseTheWeb" = true) :=
  ⟨⟨by decide, rfl⟩, subclass_key alice heap1 0 "MobileBrowseTheWeb" "BrowseTheWeb"
    (by decide) rfl⟩

/-! ### C4 -/

/-- **C4.** Granting a `BrowseTheWeb` instance `X` (heap object `oid`)
to actor `A` stores a freshly allocated object: `ability_to` returns
the new object's id (which is not `oid`), the new object carries the
same browser/context/page handles as `X` with its diagnostic actor
reference set to `A`, and `X`'s own fields — its actor reference
included — are unchanged by the grant. -/
theorem whoCan_binds (a : Actor) (h : Heap) (oid : Nat) (f : BTWFields)
    (hget : h.get oid = some f) (hlt : oid < h.next) :
    abilityTo (whoCan a h [⟨"BrowseTheWeb", oid⟩]).1 "BrowseTheWeb" = .ok h.next ∧
    h.next ≠ oid ∧
    (whoCan a h [⟨"BrowseTheWeb", oid⟩]).2.get h.next =
      some { browser := f.browser, ctx := f.ctx, pg := f.pg, actorRef := some a.aid } ∧
    (whoCan a h [⟨"BrowseTheWeb", oid⟩]).2.get oid = some f := by
  have hfa : h.getF oid = f := by simp [Heap.getF, hget]
  have hne : oid ≠ h.next := Nat.ne_of_lt hlt
  refine ⟨?_, (Nat.ne_of_lt hlt).symm, ?_, ?_⟩
  · simp [whoCan, asActor, hfa, abilityTo, dictGet_insert_self, Heap.alloc]
  · simpa [whoCan, asActor, hfa] using
      Heap.get_alloc_new h { f with actorRef := some a.aid }
  · simpa [whoCan, asActor, hfa] using
      (Heap.get_alloc_ne h { f with actorRef := some a.aid } oid hne).trans hget

/-- Witness for C4 at a concrete actor, heap and ability object. -/
theorem whoCan_binds_witness :
    (heap1.get 0 = some { browser := 1, ctx := some 2, pg := some 3, actorRef := some 1 } ∧
      0 < heap1.next) ∧
    (abilityTo (whoCan alice heap1 [⟨"BrowseTheWeb", 0⟩]).1 "BrowseTheWeb" = .ok heap1.next ∧
    heap1.next ≠ 0 ∧
    (whoCan alice heap1 [⟨"BrowseTheWeb", 0⟩]).2.get heap1.next =
      some { browser := 1, ctx := some 2, pg := some 3, actorRef := some alice.aid } ∧
    (whoCan alice heap1 [⟨"BrowseTheWeb", 0⟩]).2.get 0 =
      some { browser := 1, ctx := some 2, pg := some 3, actorRef := some 1 }) :=
  ⟨⟨rfl, by decide⟩, whoCan_binds alice heap1 0
    { browser := 1, ctx := some 2, pg := some 3, actorRef := some 1 } rfl (by decide)⟩

/-! ### C8 -/

/-- A heap with two unbound `BrowseTheWeb` objects (ids 0 and 1). -/
def heap2 : Heap :=
  { objs := [(0, { browser := 1, ctx := none, pg := none, actorRef := none }),
             (1, { browser := 7, ctx := some 8, pg := none, actorRef := none })],
    next := 2 }

/-- Evaluation of a single-ability grant: the stored object is the one
freshly allocated by `as_actor`, keyed by the granted ability's class. -/
theorem whoCan_single (a : Actor) (h : Heap) (K : String) (o : Nat) :
    whoCan a h [⟨K, o⟩] =
      ({ a with abilities := dictInsert K h.next a.abilities },
       (h.alloc { h.getF o with actorRef := some a.aid }).1) := by
  simp [whoCan, asActor, Heap.alloc]

/-- **C8.** Granting a second ability instance of the same kind `K`
replaces the first: after `A.who_can(X1); A.who_can(X2)` (both of kind
`K`), `ability_to(K)` returns the object bound from `X2` — the object
freshly allocated by the second grant, carrying `X2`'s handles and a
reference to `A` — and the abilities dict still holds at most one
entry for `K`. -/
theorem grant_replaces (a : Actor) (h : Heap) (o1 o2 : Nat) (f2 : BTWFields) (K : String)
    (hg2 : h.get o2 = some f2) (hlt2 : o2 < h.next)
    (huniq : (a.abilities.filter (fun p => p.1 == K)).length ≤ 1) :
    abilityTo (whoCan (whoCan a h [⟨K, o1⟩]).1 (whoCan a h [⟨K, o1⟩]).2 [⟨K, o2⟩]).1 K =
      .ok (whoCan a h [⟨K, o1⟩]).2.next ∧
    (whoCan (whoCan a h [⟨K, o1⟩]).1 (whoCan a h [⟨K, o1⟩]).2 [⟨K, o2⟩]).2.get
        (whoCan a h [⟨K, o1⟩]).2.next = some { f2 with actorRef := some a.aid } ∧
    ((whoCan (whoCan a h [⟨K, o1⟩]).1 (whoCan a h [⟨K, o1⟩]).2 [⟨K, o2⟩]).1.abilities.filter
        (fun p => p.1 == K)).length ≤ 1 := by
  have hne2 : o2 ≠ h.next := Nat.ne_of_lt hlt2
  have hf2 : ((h.alloc { h.getF o1 with actorRef := some a.aid }).1).getF o2 = f2 := by
    simp only [Heap.getF]
    rw [Heap.get_alloc_ne h _ o2 hne2, hg2]
    rfl
  rw [whoCan_single, whoCan_single]
  refine ⟨?_, ?_, ?_⟩
  · simp [abilityTo, dictGet_insert_self]
  · simp only [hf2]
    simpa [Heap.alloc] using
      Heap.get_alloc_new (h.alloc { h.getF o1 with actorRef := some a.aid }).1
        { f2 with actorRef := some a.aid }
  · exact dictInsert_filter_le_one _ _ _ (dictInsert_filter_le_one _ _ _ huniq)

/-- Witness for C8: two concrete grants of kind `BrowseTheWeb`;
`ability_to` afterwards returns the object bound from the second
instance (browser handle 7, context 8). -/
theorem grant_replaces_witness :
    (heap2.get 1 = some { browser := 7, ctx := some 8, pg := none, actorRef := none } ∧
      1 < heap2.next ∧
      ((alice.abilities.filter (fun p => p.1 == "BrowseTheWeb")).length ≤ 1)) ∧
    (abilityTo (whoCan (whoCan alice heap2 [⟨"BrowseTheWeb", 0⟩]).1
        (whoCan alice heap2 [⟨"BrowseTheWeb", 0⟩]).2 [⟨"BrowseTheWeb", 1⟩]).1 "BrowseTheWeb" =
      .ok (whoCan alice heap2 [⟨"BrowseTheWeb", 0⟩]).2.next ∧
    (whoCan (whoCan alice heap2 [⟨"BrowseTheWeb", 0⟩]).1
        (whoCan alice heap2 [⟨"BrowseTheWeb", 0⟩]).2 [⟨"BrowseTheWeb", 1⟩]).2.get
        (whoCan alice heap2 [⟨"BrowseTheWeb", 0⟩]).2.next =
      some { browser := 7, ctx := some 8, pg := none, actorRef := some alice.aid } ∧
    ((whoCan (whoCan alice heap2 [⟨"BrowseTheWeb", 0⟩]).1
        (whoCan alice heap2 [⟨"BrowseTheWeb", 0⟩]).2 [⟨"BrowseTheWeb", 1⟩]).1.abilities.filter
        (fun p => p.1 == "BrowseTheWeb")).length ≤ 1) :=
  ⟨⟨rfl, by decide, by decide⟩,
    grant_replaces alice heap2 0 1
      { browser := 7, ctx := some 8, pg := none, actorRef := none } "BrowseTheWeb"
      rfl (by decide) (by decide)⟩

/-! ### C10 -/

/-- **C10.** `as_actor` copies the browser/context/page fields by value
into a freshly allocated object, so the bound copy and the original
alias no mutable field storage: closing the page or the context, or
lazily creating a page, through either one leaves the other object's
cached fields unchanged. -/
theorem asActor_isolates (h : Heap) (oid aid : Nat) (f : BTWFields)
    (hget : h.get oid = some f) (hlt : oid < h.next) :
    (asActor h oid aid).2 ≠ oid ∧
    (asActor h oid aid).1.get (asActor h oid aid).2 = some { f with actorRef := some aid } ∧
    (closePageH (asActor h oid aid).1 (asActor h oid aid).2).get oid = some f ∧
    (closeContextH (asActor h oid aid).1 (asActor h oid aid).2).get oid = some f ∧
    (∀ d p h2 d2, pagePropH (asActor h oid aid).1 (asActor h oid aid).2 d = .ok (p, h2, d2) →
      h2.get oid = some f) ∧
    (closePageH (asActor h oid aid).1 oid).get (asActor h oid aid).2 =
      some { f with actorRef := some aid } ∧
    (closeContextH (asActor h oid aid).1 oid).get (asActor h oid aid).2 =
      some { f with actorRef := some aid } ∧
    (∀ d p h2 d2, pagePropH (asActor h oid aid).1 oid d = .ok (p, h2, d2) →
      h2.get (asActor h oid aid).2 = some { f with actorRef := some aid }) := by
  have hfa : h.getF oid = f := by simp [Heap.getF, hget]
  have hne : oid ≠ h.next := Nat.ne_of_lt hlt
  have hid : (asActor h oid aid).2 = h.next := by simp [asActor, hfa, Heap.alloc]
  have hgetOld : (asActor h oid aid).1.get oid = some f := by
    simpa [asActor, hfa] using (Heap.get_alloc_ne h { f with actorRef := some aid } oid hne).trans hget
  have hgetNew : (asActor h oid aid).1.get (asActor h oid aid).2 =
      some { f with actorRef := some aid } := by
    simpa [asActor, hfa] using Heap.get_alloc_new h { f with actorRef := some aid }
  have hset : ∀ g : BTWFields,
      ((asActor h oid aid).1.set (asActor h oid aid).2 g).get oid = some f := by
    intro g
    rw [Heap.get_set_ne _ _ _ _ (hid ▸ hne)]
    exact hgetOld
  have hset' : ∀ g : BTWFields,
      ((asActor h oid aid).1.set oid g).get (asActor h oid aid).2 =
        some { f with actorRef := some aid } := by
    intro g
    rw [Heap.get_set_ne _ _ _ _ (hid ▸ (Ne.symm hne))]
    exact hgetNew
  refine ⟨hid ▸ (Ne.symm hne), hgetNew, hset _, hset _, ?_, hset' _, hset' _, ?_⟩
  · intro d p h2 d2 hp
    unfold pagePropH at hp
    cases hpp : pageProp ((asActor h oid aid).1.getF (asActor h oid aid).2) d with
    | error e => rw [hpp] at hp; cases hp
    | ok v =>
        obtain ⟨p', f', d'⟩ := v
        rw [hpp] at hp
        obtain ⟨-, rfl, -⟩ : p' = p ∧ (asActor h oid aid).1.set (asActor h oid aid).2 f' = h2
            ∧ d' = d2 := by simpa using hp
        exact hset _
  · intro d p h2 d2 hp
    unfold pagePropH at hp
    cases hpp : pageProp ((asActor h oid aid).1.getF oid) d with
    | error e => rw [hpp] at hp; cases hp
    | ok v =>
        obtain ⟨p', f', d'⟩ := v
        rw [hpp] at hp
        obtain ⟨-, rfl, -⟩ : p' = p ∧ (asActor h oid aid).1.set oid f' = h2 ∧ d' = d2 := by
          simpa using hp
        exact hset' _

/-- Witness for C10 on the concrete heap `heap1`. -/
theorem asActor_isolates_witness :
    (heap1.get 0 = some { browser := 1, ctx := some 2, pg := some 3, actorRef := some 1 } ∧
      0 < heap1.next) ∧
    ((asActor heap1 0 5).2 ≠ 0 ∧
    (asActor heap1 0 5).1.get (asActor heap1 0 5).2 =
      some { browser := 1, ctx := some 2, pg := some 3, actorRef := some 5 } ∧
    (closePageH (asActor heap1 0 5).1 (asActor heap1 0 5).2).get 0 =
      some { browser := 1, ctx := some 2, pg := some 3, actorRef := some 1 } ∧
    (closeContextH (asActor heap1 0 5).1 (asActor heap1 0 5).2).get 0 =
      some { browser := 1, ctx := some 2, pg := some 3, actorRef := some 1 } ∧
    (∀ d p h2 d2, pagePropH (asActor heap1 0 5).1 (asActor heap1 0 5).2 d = .ok (p, h2, d2) →
      h2.get 0 = some { browser := 1, ctx := some 2, pg := some 3, actorRef := some 1 }) ∧
    (closePageH (asActor heap1 0 5).1 0).get (asActor heap1 0 5).2 =
      some { browser := 1, ctx := some 2, pg := some 3, actorRef := some 5 } ∧
    (closeContextH (asActor heap1 0 5).1 0).get (asActor heap1 0 5).2 =
      some { browser := 1, ctx := some 2, pg := some 3, actorRef := some 5 } ∧
    (∀ d p h2 d2, pagePropH (asActor heap1 0 5).1 0 d = .ok (p, h2, d2) →
      h2.get (asActor heap1 0 5).2 =
        some { browser := 1, ctx := some 2, pg := some 3, actorRef := some 5 })) :=
  ⟨⟨rfl, by decide⟩, asActor_isolates heap1 0 5
    { browser := 1, ctx := some 2, pg := some 3, actorRef := some 1 } rfl (by decide)⟩

/-! ### C5 -/

/-- **C5.** After `close_context()` both caches are cleared, and the
next `page` access creates a fresh page under a freshly created
context: the returned page handle differs from the previously cached
one (and the new context differs from the closed one), given that the
cached handles were handed out by the driver earlier (`p < counter`,
`c < counter`) and the driver's create calls succeed. -/
theorem close_context_fresh_page (f : BTWFields) (d : DriverState) (c p : Nat)
    (hc : f.ctx = some c) (hp : f.pg = some p)
    (hwfp : p < d.counter) (hwfc : c < d.counter)
    (hnc : d.newContextErr = none) (hnp : d.newPageErr = none) :
    (close_context f).ctx = none ∧ (close_context f).pg = none ∧
    pageProp (close_context f) d =
      .ok (d.counter + 1,
        { browser := f.browser, ctx := some d.counter, pg := some (d.counter + 1),
          actorRef := f.actorRef },
        { d with counter := d.counter + 2,
                 log := d.log ++ [.newContext d.counter, .newPage (d.counter + 1)] }) ∧
    d.counter + 1 ≠ p ∧ d.counter ≠ c := by
  have h1 : close_context f = { f with ctx := none, pg := none } := by
    simp [close_context, hc]
  refine ⟨by simp [h1], by simp [h1], ?_, by omega, by omega⟩
  rw [h1]
  simp [pageProp, contextProp, hnc, hnp]

/-- Witness for C5 at a concrete ability state and driver. -/
theorem close_context_fresh_page_witness :
    (({ browser := 1, ctx := some 2, pg := some 3, actorRef := none } : BTWFields).ctx = some 2 ∧
      ({ browser := 1, ctx := some 2, pg := some 3, actorRef := none } : BTWFields).pg = some 3 ∧
      3 < okDriver.counter ∧ 2 < okDriver.counter ∧
      okDriver.newContextErr = none ∧ okDriver.newPageErr = none) ∧
    ((close_context { browser := 1, ctx := some 2, pg := some 3, actorRef := none }).ctx = none ∧
    (close_context { browser := 1, ctx := some 2, pg := some 3, actorRef := none }).pg = none ∧
    pageProp (close_context { browser := 1, ctx := some 2, pg := some 3, actorRef := none })
        okDriver =
      .ok (okDriver.counter + 1,
        { browser := 1, ctx := some okDriver.counter, pg := some (okDriver.counter + 1),
          actorRef := none },
        { okDriver with counter := okDriver.counter + 2,
                        log := okDriver.log ++
                          [.newContext okDriver.counter, .newPage (okDriver.counter + 1)] }) ∧
    okDriver.counter + 1 ≠ 3 ∧ okDriver.counter ≠ 2) :=
  ⟨⟨rfl, rfl, by decide, by decide, rfl, rfl⟩,
    close_context_fresh_page { browser := 1, ctx := some 2, pg := some 3, actorRef := none }
      okDriver 2 3 rfl rfl (by decide) (by decide) rfl rfl⟩

/-! ### C3 -/

/-- A heap whose single `BrowseTheWeb` object (id 0, owned by Bob) has
no cached context or page. -/
def heapNoCtx : Heap :=
  { objs := [(0, { browser := 1, ctx := none, pg := none, actorRef := some 1 })],
    next := 1 }

/-- A driver on which `new_context` raises. -/
def failCtxDriver : DriverState :=
  { okDriver with newContextErr := some (.driverError "BrowserError" "new_context failed") }

/-- Counterexample for C3: answering Visibility (and Presence) *can*
raise.  Both questions resolve the actor's ability and the `page`
property *outside* the `try` block: an actor without the
`BrowseTheWeb` ability makes `answered_by` raise `ValueError`
(first two conjuncts), and a driver failure while creating the
context/page for the probe propagates (last two conjuncts). -/
theorem visibility_raises_cex :
    visibilityAnsweredBy "#msg" alice heap1 okDriver =
      .error (.valueError "Actor Alice does not have the ability BrowseTheWeb") ∧
    presenceAnsweredBy "#msg" alice heap1 okDriver =
      .error (.valueError "Actor Alice does not have the ability BrowseTheWeb") ∧
    visibilityAnsweredBy "#msg" bob heapNoCtx failCtxDriver =
      .error (.driverError "BrowserError" "new_context failed") ∧
    presenceAnsweredBy "#msg" bob heapNoCtx failCtxDriver =
      .error (.driverError "BrowserError" "new_context failed") :=
  ⟨rfl, rfl, rfl, rfl⟩

/-- **C3 (amended).** For every actor that holds the `BrowseTheWeb`
ability and every driver/heap state in which the `page` property
succeeds, answering the Visibility or Presence question never raises:
the call returns a boolean, and any error the driver raises during the
`is_visible` / `query_selector` probe itself is caught and the answer
is `false`.  (Errors from the ability lookup or from acquiring the
page happen outside the `try` block and do propagate.) -/
theorem visibility_presence_no_raise (loc : String) (a : Actor) (h : Heap)
    (d : DriverState) (oid p : Nat) (f' : BTWFields) (d' : DriverState)
    (hab : abilityTo a "BrowseTheWeb" = .ok oid)
    (hpg : pageProp (h.getF oid) d = .ok (p, f', d')) :
    (∃ b h2 d2, visibilityAnsweredBy loc a h d = .ok (b, h2, d2)) ∧
    (∃ b h2 d2, presenceAnsweredBy loc a h d = .ok (b, h2, d2)) ∧
    (∀ e, d'.isVisibleR loc = .error e →
      visibilityAnsweredBy loc a h d = .ok (false, h.set oid f', d')) ∧
    (∀ e, d'.queryFoundR loc = .error e →
      presenceAnsweredBy loc a h d = .ok (false, h.set oid f', d')) := by
  have hv : visibilityAnsweredBy loc a h d =
      match d'.isVisibleR loc with
      | .error _ => .ok (false, h.set oid f', d')
      | .ok b => .ok (b, h.set oid f', d') := by
    simp [visibilityAnsweredBy, hab, pagePropH, hpg]
  have hq : presenceAnsweredBy loc a h d =
      match d'.queryFoundR loc with
      | .error _ => .ok (false, h.set oid f', d')
      | .ok b => .ok (b, h.set oid f', d') := by
    simp [presenceAnsweredBy, hab, pagePropH, hpg]
  refine ⟨?_, ?_, ?_, ?_⟩
  · rw [hv]
    cases d'.isVisibleR loc with
    | error e => exact ⟨false, _, _, rfl⟩
    | ok b => exact ⟨b, _, _, rfl⟩
  · rw [hq]
    cases d'.queryFoundR loc with
    | error e => exact ⟨false, _, _, rfl⟩
    | ok b => exact ⟨b, _, _, rfl⟩
  · intro e he
    rw [hv, he]
  · intro e he
    rw [hq, he]

/-- A driver whose probes all raise (detached-frame style errors), while
everything before the probe succeeds. -/
def failProbeDriver : DriverState :=
  { okDriver with
      isVisibleR := fun _ => .error (.driverError "PlaywrightError" "frame detached")
      queryFoundR := fun _ => .error (.driverError "PlaywrightError" "frame detached") }

/-- Witness for C3's amended theorem: with the ability held and a
cached page, a raising probe yields the answer `false` for both
questions. -/
theorem visibility_presence_no_raise_witness :
    (abilityTo bob "BrowseTheWeb" = .ok 0 ∧
      pageProp (heap1.getF 0) failProbeDriver =
        .ok (3, { browser := 1, ctx := some 2, pg := some 3, actorRef := some 1 },
          failProbeDriver)) ∧
    ((∃ b h2 d2, visibilityAnsweredBy "#msg" bob heap1 failProbeDriver = .ok (b, h2, d2)) ∧
    (∃ b h2 d2, presenceAnsweredBy "#msg" bob heap1 failProbeDriver = .ok (b, h2, d2)) ∧
    (∀ e, failProbeDriver.isVisibleR "#msg" = .error e →
      visibilityAnsweredBy "#msg" bob heap1 failProbeDriver =
        .ok (false, heap1.set 0 { browser := 1, ctx := some 2, pg := some 3, actorRef := some 1 },
          failProbeDriver)) ∧
    (∀ e, failProbeDriver.queryFoundR "#msg" = .error e →
      presenceAnsweredBy "#msg" bob heap1 failProbeDriver =
        .ok (false, heap1.set 0 { browser := 1, ctx := some 2, pg := some 3, actorRef := some 1 },
          failProbeDriver))) :=
  ⟨⟨rfl, rfl⟩, visibility_presence_no_raise "#msg" bob heap1 failProbeDriver 0 3
    { browser := 1, ctx := some 2, pg := some 3, actorRef := some 1 } failProbeDriver rfl rfl⟩

/-! ### C6 -/

/-- **C6.** `Text.answered_by` first waits for the element to be
visible — a failing wait aborts with that error before any text is
read (first conjunct) — and on a successful wait returns the element's
text content with a missing/`None` content normalized to `""`
(second conjunct); in particular when the driver reports no content
the answer is the empty string, never `None` (third conjunct). -/
theorem text_never_none (loc : String) (a : Actor) (h : Heap) (d : DriverState)
    (oid p : Nat) (f' : BTWFields) (d' : DriverState) (tc : Option String)
    (hab : abilityTo a "BrowseTheWeb" = .ok oid)
    (hpg : pageProp (h.getF oid) d = .ok (p, f', d'))
    (htc : d'.textContentR loc = .ok tc) :
    (∀ e, d'.waitVisR loc = .error e → textAnsweredBy loc a h d = .error e) ∧
    (d'.waitVisR loc = .ok () →
      textAnsweredBy loc a h d =
        .ok (tc.getD "", h.set oid f', { d' with log := d'.log ++ [.waitVisible loc] })) ∧
    (d'.waitVisR loc = .ok () → tc = none →
      textAnsweredBy loc a h d =
        .ok ("", h.set oid f', { d' with log := d'.log ++ [.waitVisible loc] })) := by
  have ht : textAnsweredBy loc a h d =
      match waitForSelectorVisible loc d' with
      | .error e => .error e
      | .ok d2 =>
          match d2.textContentR loc with
          | .error e => .error e
          | .ok tc => .ok (tc.getD "", h.set oid f', d2) := by
    simp [textAnsweredBy, hab, pagePropH, hpg]
  refine ⟨?_, ?_, ?_⟩
  · intro e he
    rw [ht]
    simp [waitForSelectorVisible, he]
  · intro hw
    rw [ht]
    simp [waitForSelectorVisible, hw, htc]
  · intro hw hnone
    rw [ht]
    subst hnone
    simp [waitForSelectorVisible, hw, htc]

/-- A driver whose `text_content` reports a missing (`None`) content. -/
def noneTextDriver : DriverState :=
  { okDriver with textContentR := fun _ => .ok none }

/-- Witness for C6: with a `None` text content the answer is `""`. -/
theorem text_never_none_witness :
    (abilityTo bob "BrowseTheWeb" = .ok 0 ∧
      pageProp (heap1.getF 0) noneTextDriver =
        .ok (3, { browser := 1, ctx := some 2, pg := some 3, actorRef := some 1 },
          noneTextDriver) ∧
      noneTextDriver.textContentR "#msg" = .ok none ∧
      noneTextDriver.waitVisR "#msg" = .ok ()) ∧
    ((∀ e, noneTextDriver.waitVisR "#msg" = .error e →
      textAnsweredBy "#msg" bob heap1 noneTextDriver = .error e) ∧
    (noneTextDriver.waitVisR "#msg" = .ok () →
      textAnsweredBy "#msg" bob heap1 noneTextDriver =
        .ok ((none : Option String).getD "",
          heap1.set 0 { browser := 1, ctx := some 2, pg := some 3, actorRef := some 1 },
          { noneTextDriver with log := noneTextDriver.log ++ [.waitVisible "#msg"] })) ∧
    (noneTextDriver.waitVisR "#msg" = .ok () → (none : Option String) = none →
      textAnsweredBy "#msg" bob heap1 noneTextDriver =
        .ok ("", heap1.set 0 { browser := 1, ctx := some 2, pg := some 3, actorRef := some 1 },
          { noneTextDriver with log := noneTextDriver.log ++ [.waitVisible "#msg"] }))) :=
  ⟨⟨rfl, rfl, rfl, rfl⟩, text_never_none "#msg" bob heap1 noneTextDriver 0 3
    { browser := 1, ctx := some 2, pg := some 3, actorRef := some 1 } noneTextDriver none
    rfl rfl rfl⟩

/-! ### C7 -/

/-- **C7.** `Type.perform_as` first waits for the locator to be
visible; when the `clear` option is truthy — which is the default when
the option is absent (third conjunct) — it issues `fill(locator, "")`
(a direct value set) before `type(locator, text, ...)` with
simulated-keystroke semantics, in exactly that order (first conjunct);
when `clear` is falsy no fill is issued (second conjunct); and the
options passed to the underlying `type` call are exactly the given
options with the `clear` key removed: every non-`clear` option passes
through unmodified (fourth conjunct) and `clear` itself never does
(fifth conjunct). -/
theorem type_perform_spec (t : TypeI) (a : Actor) (h : Heap) (d : DriverState)
    (oid p : Nat) (f' : BTWFields) (d' : DriverState)
    (hab : abilityTo a "BrowseTheWeb" = .ok oid)
    (hpg : pageProp (h.getF oid) d = .ok (p, f', d'))
    (hw : d'.waitVisR t.locator = .ok ())
    (hf : d'.fillErr t.locator "" = none)
    (hty : d'.typeErr t.locator t.text = none) :
    (((optGet "clear" t.options).getD (.vBool true)).truthy = true →
      typePerformAs t a h d = .ok (h.set oid f',
        { d' with log := d'.log ++ [.waitVisible t.locator, .fill t.locator "",
            .typeText t.locator t.text (t.options.filter (fun p => p.1 ≠ "clear"))] })) ∧
    (((optGet "clear" t.options).getD (.vBool true)).truthy = false →
      typePerformAs t a h d = .ok (h.set oid f',
        { d' with log := d'.log ++ [.waitVisible t.locator,
            .typeText t.locator t.text (t.options.filter (fun p => p.1 ≠ "clear"))] })) ∧
    (optGet "clear" t.options = none →
      ((optGet "clear" t.options).getD (.vBool true)).truthy = true) ∧
    (∀ kv ∈ t.options, kv.1 ≠ "clear" →
      kv ∈ t.options.filter (fun p => p.1 ≠ "clear")) ∧
    (∀ kv ∈ t.options.filter (fun p => p.1 ≠ "clear"), kv.1 ≠ "clear" ∧ kv ∈ t.options) := by
  have ht : typePerformAs t a h d =
      match waitForSelectorVisible t.locator d' with
      | .error e => .error e
      | .ok d2 =>
          match (if ((optGet "clear" t.options).getD (.vBool true)).truthy then
              fillCall t.locator "" d2 else .ok d2) with
          | .error e => .error e
          | .ok d3 =>
              match typeCall t.locator t.text
                  (t.options.filter (fun p => p.1 ≠ "clear")) d3 with
              | .error e => .error e
              | .ok d4 => .ok (h.set oid f', d4) := by
    simp [typePerformAs, hab, pagePropH, hpg]
  refine ⟨?_, ?_, ?_, ?_, ?_⟩
  · intro hclear
    rw [ht]
    simp [waitForSelectorVisible, hw, hclear, fillCall, hf, typeCall, hty]
  · intro hclear
    rw [ht]
    simp [waitForSelectorVisible, hw, hclear, typeCall, hty]
  · intro habsent
    simp [habsent, PyVal.truthy]
  · intro kv hmem hne
    simp only [List.mem_filter]
    exact ⟨hmem, by simpa using hne⟩
  · intro kv hmem
    rw [List.mem_filter] at hmem
    exact ⟨by simpa using hmem.2, hmem.1⟩

/-- Witness for C7: a concrete `Type` interaction with a `delay`
option and no `clear` option (so clearing defaults on); the driver
log records wait, fill, then type, with `delay` passed through and no
`clear` key. -/
theorem type_perform_spec_witness :
    (abilityTo bob "BrowseTheWeb" = .ok 0 ∧
      pageProp (heap1.getF 0) okDriver =
        .ok (3, { browser := 1, ctx := some 2, pg := some 3, actorRef := some 1 }, okDriver) ∧
      okDriver.waitVisR "#user" = .ok () ∧
      okDriver.fillErr "#user" "" = none ∧
      okDriver.typeErr "#user" "student" = none) ∧
    ((((optGet "clear" (TypeI.make "student" "#user"
          (some [("delay", .vInt 50)])).options).getD (.vBool true)).truthy = true →
      typePerformAs (TypeI.make "student" "#user" (some [("delay", .vInt 50)])) bob heap1
          okDriver =
        .ok (heap1.set 0 { browser := 1, ctx := some 2, pg := some 3, actorRef := some 1 },
          { okDriver with log := okDriver.log ++ [.waitVisible "#user", .fill "#user" "",
              .typeText "#user" "student"
                ((TypeI.make "student" "#user" (some [("delay", .vInt 50)])).options.filter
                  (fun p => p.1 ≠ "clear"))] })) ∧
    (((optGet "clear" (TypeI.make "student" "#user"
          (some [("delay", .vInt 50)])).options).getD (.vBool true)).truthy = false →
      typePerformAs (TypeI.make "student" "#user" (some [("delay", .vInt 50)])) bob heap1
          okDriver =
        .ok (heap1.set 0 { browser := 1, ctx := some 2, pg := some 3, actorRef := some 1 },
          { okDriver with log := okDriver.log ++ [.waitVisible "#user",
              .typeText "#user" "student"
                ((TypeI.make "student" "#user" (some [("delay", .vInt 50)])).options.filter
                  (fun p => p.1 ≠ "clear"))] })) ∧
    (optGet "clear" (TypeI.make "student" "#user" (some [("delay", .vInt 50)])).options = none →
      ((optGet "clear" (TypeI.make "student" "#user"
          (some [("delay", .vInt 50)])).options).getD (.vBool true)).truthy = true) ∧
    (∀ kv ∈ (TypeI.make "student" "#user" (some [("delay", .vInt 50)])).options,
      kv.1 ≠ "clear" →
      kv ∈ (TypeI.make "student" "#user" (some [("delay", .vInt 50)])).options.filter
        (fun p => p.1 ≠ "clear")) ∧
    (∀ kv ∈ (TypeI.make "student" "#user" (some [("delay", .vInt 50)])).options.filter
        (fun p => p.1 ≠ "clear"), kv.1 ≠ "clear" ∧
      kv ∈ (TypeI.make "student" "#user" (some [("delay", .vInt 50)])).options)) :=
  ⟨⟨rfl, rfl, rfl, rfl, rfl⟩, type_perform_spec
    (TypeI.make "student" "#user" (some [("delay", .vInt 50)])) bob heap1 okDriver 0 3
    { browser := 1, ctx := some 2, pg := some 3, actorRef := some 1 } okDriver
    rfl rfl rfl rfl rfl⟩

end Screenplay
